import Mathlib

/-!
Verification of the qtercon command-window core: the rate limiter in
`CommandWindow::sendCommand`, the transcript logger `CommandWindow::writeToLog`,
the periodic status poll `CommandWindow::requestServerStatus`, the constructor
initialisation, and the out-of-band framing layer.

Sources: src/commandwindow.cpp (authoritative), spec.md for the parts of the
repository (Framing, Rcon/Query clients) whose code is not in the tree.
-/

namespace Qtercon

/-- Timestamps in milliseconds since the epoch; models `QDateTime` by its
millisecond value. -/
abbrev Timestamp := Int

/-- Models `QDateTime::msecsTo`: `a.msecsTo(b)` is the signed number of
milliseconds from `a` to `b`. -/
def msecsTo (a b : Timestamp) : Int := b - a

/-- Milliseconds in one day; `QDateTime::addDays(-1)` moves a timestamp back by
this amount (line 26 of commandwindow.cpp). -/
def msecsPerDay : Int := 86400000

/-- Abstract rendering of a timestamp, modelling `QDateTime::toString()`.  The
exact textual format is irrelevant to every claim; only the fact that it is a
function of the timestamp alone (in particular, not of the rcon password)
matters. -/
def dateTimeString (t : Timestamp) : String := toString t

/-- `CommandWindow::logFileNameFormat = "log_%1_%2.log"` (commandwindow.cpp
line 14). -/
def logFileNameFormat : String := "log_%1_%2.log"

/-- Models commandwindow.cpp line 27:
`logFileName = QString(logFileNameFormat).arg(server.getIp()).arg(server.getPort())`.
`QString::arg` substitutes the lowest-numbered place marker, so on the format
string `"log_%1_%2.log"` the first call replaces `%1` with the host and the
second replaces `%2` with the decimal rendering of the port, yielding
`"log_" ++ host ++ "_" ++ port ++ ".log"`. -/
def mkLogFileName (host : String) (port : Nat) : String :=
  "log_" ++ host ++ "_" ++ toString port ++ ".log"

example : mkLogFileName "1.2.3.4" 28960 = "log_1.2.3.4_28960.log" := by decide

/-- Modelled from the spec: `RconClient.send(command)` "composes the password:
`rcon <password> <command>`" (§4.2, §6).  The `Rcon` class itself is not under
src/; only its caller `CommandWindow::sendCommand` is. -/
def rconPayload (password command : String) : String :=
  "rcon " ++ password ++ " " ++ command

namespace CommandWindow

/-- The observable state of a `CommandWindow` session, restricted to what the
claims are about.  `lastCommand` is the member mutated by `sendCommand`;
`password` is the shared secret held by the `Rcon` client; `loggingEnabled` is
the value stored for the `"logging_enabled"` key in the settings file (`none`
when the key is absent, in which case `preferences.value` falls back to the
integer default `1`); `logOpenOk` says whether `QFile::open` on the log file
succeeds (an environment fact, held fixed across the session).  The remaining
fields are effect traces: `logFile` is the sequence of strings appended to the
per-server log file, `logOpens` counts the `QFile::open` calls made on it,
`openHandles` counts the file handles still held after the call (every
`writeToLog` destroys its local `QFile` before returning), `sentRcon` the
payloads handed to `rcon->send`, and `sentQuery` the payloads handed to
`status->send`. -/
structure State where
  lastCommand : Timestamp
  password : String
  loggingEnabled : Option String
  logOpenOk : Bool
  logFileName : String
  logFile : List String
  logOpens : Nat
  openHandles : Nat
  sentRcon : List String
  sentQuery : List String
deriving DecidableEq, Repr

/-- `CommandWindow::writeToLog` (commandwindow.cpp lines 172-183).  The guard
models `preferences.value("logging_enabled", 1) == "0"`: a stored INI value is
a string and compares equal to `"0"` exactly when it is the string `"0"`; an
absent key yields the integer default `1`, which compares with `"0"`
numerically as `1 == 0`, i.e. false.  When the guard passes, a `QFile` is
constructed and opened with `QFile::WriteOnly | QFile::Append`; on success the
line is written, and in every case the handle is released on return. -/
def writeToLog (st : State) (line : String) : State :=
  if st.loggingEnabled = some "0" then
    st
  else
    let opened := { st with logOpens := st.logOpens + 1 }
    if st.logOpenOk then
      { opened with logFile := opened.logFile ++ [line] }
    else
      opened

/-- `CommandWindow::sendCommand` (commandwindow.cpp lines 155-170): reject and
return when `lastCommand.msecsTo(now) < 1000`; otherwise set
`lastCommand = now`, build `currentDateTime().toString() + " > " + command`,
append it (with the `"\n\n"` record terminator) to the log via `writeToLog`,
and hand the command to `rcon->send`. -/
def sendCommand (st : State) (now : Timestamp) (command : String) : State :=
  if msecsTo st.lastCommand now < 1000 then
    st
  else
    let output := dateTimeString now ++ " > " ++ command
    let st₁ := { st with lastCommand := now }
    let st₂ := writeToLog st₁ (output ++ "\n\n")
    { st₂ with sentRcon := st₂.sentRcon ++ [rconPayload st₂.password command] }

/-- The gate's acceptance condition, read off the early-return test of
`sendCommand`: a call at `now` is accepted exactly when it is not the case
that `lastCommand.msecsTo(now) < 1000`. -/
def accepts (st : State) (now : Timestamp) : Bool :=
  !decide (msecsTo st.lastCommand now < 1000)

/-- `CommandWindow::requestServerStatus` (commandwindow.cpp lines 109-112):
`status->send("getstatus")`, nothing else. -/
def requestServerStatus (st : State) : State :=
  { st with sentQuery := st.sentQuery ++ ["getstatus"] }

/-- The `CommandWindow` constructor (commandwindow.cpp lines 18-41), restricted
to the modelled state: line 26 sets
`lastCommand = QDateTime::currentDateTime().addDays(-1)` where `t0` is the
construction time, and line 27 derives the log file name from the server's
`(host, port)`.  The password, settings value and log-open outcome are
environment inputs; all effect traces start empty. -/
def construct (t0 : Timestamp) (host : String) (port : Nat) (password : String)
    (loggingEnabled : Option String) (logOpenOk : Bool) : State :=
  { lastCommand := t0 - msecsPerDay
  , password := password
  , loggingEnabled := loggingEnabled
  , logOpenOk := logOpenOk
  , logFileName := mkLogFileName host port
  , logFile := []
  , logOpens := 0
  , openHandles := 0
  , sentRcon := []
  , sentQuery := [] }

/-- A concrete session state used by scenario conjuncts and witnesses:
constructed at time 0 for server 1.2.3.4:28960, password "secret", the
`logging_enabled` key absent, log file openable. -/
def demoState : State := construct 0 "1.2.3.4" 28960 "secret" none true

/-- Like `demoState` but with `logging_enabled` stored as the string "0". -/
def demoStateLogOff : State := construct 0 "1.2.3.4" 28960 "secret" (some "0") true

/-- Like `demoState` but where opening the log file fails. -/
def demoStateOpenFail : State := construct 0 "1.2.3.4" 28960 "secret" none false

end CommandWindow

/-- Modelled from the spec: the out-of-band marker, "the 4-byte `0xFFFFFFFF`
prefix used by every request and response" (§2, §4.1).  The Framing code is
not under src/. -/
def oobMarker : List Nat := [0xFF, 0xFF, 0xFF, 0xFF]

/-- Modelled from the spec: `unframe` "fails with `MalformedFrame` when the
datagram is shorter than 4 bytes or the marker mismatches" (§4.1). -/
inductive FramingError where
  | MalformedFrame
deriving DecidableEq, Repr

/-- Modelled from the spec: `frame(payload) -> datagram` "prepends the 4-byte
out-of-band marker" (§2, §4.1).  Datagrams are byte sequences. -/
def frame (payload : List Nat) : List Nat := oobMarker ++ payload

/-- Modelled from the spec: `unframe(datagram) -> payload` strips the marker,
failing with `MalformedFrame` when the datagram is shorter than 4 bytes or its
4-byte prefix is not the marker (§4.1). -/
def unframe (d : List Nat) : Except FramingError (List Nat) :=
  if d.length < 4 then
    .error .MalformedFrame
  else if d.take 4 ≠ oobMarker then
    .error .MalformedFrame
  else
    .ok (d.drop 4)

namespace CommandWindow

/-- The log-file contents after a `writeToLog` call, by cases on the guard and
the open outcome. -/
lemma writeToLog_logFile (st : State) (line : String) :
    (writeToLog st line).logFile =
      if st.loggingEnabled = some "0" then st.logFile
      else if st.logOpenOk then st.logFile ++ [line]
      else st.logFile := by
  simp only [writeToLog]
  repeat' split
  all_goals rfl

/-- A `writeToLog` call never holds a file handle after returning: the local
`QFile` is destroyed on every path. -/
lemma writeToLog_openHandles (st : State) (line : String) :
    (writeToLog st line).openHandles = st.openHandles := by
  simp only [writeToLog]
  repeat' split
  all_goals rfl

/-- A `writeToLog` call opens the log file exactly once unless the guard
returns early. -/
lemma writeToLog_logOpens (st : State) (line : String) :
    (writeToLog st line).logOpens =
      if st.loggingEnabled = some "0" then st.logOpens
      else st.logOpens + 1 := by
  simp only [writeToLog]
  repeat' split
  all_goals rfl

/-- The log-file contents after a `sendCommand` call, by cases on the gate,
the logging guard and the open outcome. -/
lemma sendCommand_logFile (st : State) (now : Timestamp) (c : String) :
    (sendCommand st now c).logFile =
      if msecsTo st.lastCommand now < 1000 then st.logFile
      else if st.loggingEnabled = some "0" then st.logFile
      else if st.logOpenOk then
        st.logFile ++ [dateTimeString now ++ " > " ++ c ++ "\n\n"]
      else st.logFile := by
  simp only [sendCommand, writeToLog]
  repeat' split
  all_goals rfl

/-- The rcon-transport trace after a `sendCommand` call: nothing on rejection,
one `rcon <password> <command>` payload on acceptance, irrespective of the
logging outcome. -/
lemma sendCommand_sentRcon (st : State) (now : Timestamp) (c : String) :
    (sendCommand st now c).sentRcon =
      if msecsTo st.lastCommand now < 1000 then st.sentRcon
      else st.sentRcon ++ [rconPayload st.password c] := by
  simp only [sendCommand, writeToLog]
  repeat' split
  all_goals rfl

/-- The rate-limiter state after a `sendCommand` call: unchanged on rejection,
`now` on acceptance. -/
lemma sendCommand_lastCommand (st : State) (now : Timestamp) (c : String) :
    (sendCommand st now c).lastCommand =
      if msecsTo st.lastCommand now < 1000 then st.lastCommand else now := by
  simp only [sendCommand, writeToLog]
  repeat' split
  all_goals rfl

end CommandWindow

open CommandWindow

/-- C1: a call to `sendCommand` at time `now` is accepted iff
`now - lastCommand ≥ 1000` milliseconds; an accepted call sets
`lastCommand := now`; and three calls at t = 0, 500, 1200 ms, starting with a
window already elapsed, yield accept, reject, accept. -/
theorem sendCommand_gate (st : State) (now : Timestamp) (c : String) :
    (accepts st now = true ↔ 1000 ≤ now - st.lastCommand)
    ∧ (accepts st now = true → (sendCommand st now c).lastCommand = now)
    ∧ (accepts demoState 0 = true
        ∧ accepts (sendCommand demoState 0 "a") 500 = false
        ∧ accepts (sendCommand (sendCommand demoState 0 "a") 500 "b") 1200 = true) := by
  refine ⟨?_, ?_, by decide, by decide, by decide⟩
  · simp [accepts, msecsTo]
  · intro h
    have h' : ¬ msecsTo st.lastCommand now < 1000 := by simpa [accepts] using h
    rw [sendCommand_lastCommand, if_neg h']

/-- C1 witness: a concrete accepted call updates `lastCommand`. -/
theorem sendCommand_gate_witness :
    (sendCommand demoState 1200 "map q3dm6").lastCommand = 1200 :=
  (sendCommand_gate demoState 1200 "map q3dm6").2.1 (by decide)

/-- C2: a send rejected by the rate limiter is a complete no-op: no error is
raised (the early `return` is the only control flow), and the whole state —
`lastCommand`, the transcript log, the sent-datagram traces — is unchanged. -/
theorem sendCommand_reject_noop (st : State) (now : Timestamp) (c : String)
    (h : accepts st now = false) : sendCommand st now c = st := by
  have h' : msecsTo st.lastCommand now < 1000 := by simpa [accepts] using h
  simp [sendCommand, h']

/-- C2 witness: the rejected call at t = 500 ms leaves the state of the
accepted call at t = 0 untouched. -/
theorem sendCommand_reject_noop_witness :
    sendCommand (sendCommand demoState 0 "a") 500 "b" = sendCommand demoState 0 "a" :=
  sendCommand_reject_noop (sendCommand demoState 0 "a") 500 "b" (by decide)

/-- C3: unframing a framed payload returns the payload unchanged, and
`unframe` fails with `MalformedFrame` exactly when the datagram is shorter
than 4 bytes or its 4-byte prefixed marker differs from `0xFFFFFFFF`. -/
theorem unframe_frame :
    (∀ p : List Nat, unframe (frame p) = .ok p)
    ∧ (∀ d : List Nat,
        unframe d = .error .MalformedFrame ↔ d.length < 4 ∨ d.take 4 ≠ oobMarker) := by
  constructor
  · intro p
    have hlen : ¬ (frame p).length < 4 := by simp [frame, oobMarker]
    have htake : (frame p).take 4 = oobMarker := List.take_left oobMarker p
    have hdrop : (frame p).drop 4 = p := List.drop_left oobMarker p
    simp [unframe, hlen, htake, hdrop]
  · intro d
    unfold unframe
    split
    · simp_all
    · split
      · simp_all
      · simp_all

/-- C4: the transcript line written for an accepted send is exactly the
timestamp, the separator `" > "` and the user-entered command (followed by the
`"\n\n"` record terminator); the rcon password never reaches the log — the log
contents are identical under any two passwords — even though the payload
handed to the rcon client is `rcon <password> <command>`. -/
theorem sendCommand_password_hidden (st : State) (now : Timestamp) (c : String)
    (pw₁ pw₂ : String) :
    ((sendCommand { st with password := pw₁ } now c).logFile
        = (sendCommand { st with password := pw₂ } now c).logFile)
    ∧ (accepts st now = true → st.loggingEnabled ≠ some "0" → st.logOpenOk = true →
        (sendCommand st now c).logFile
            = st.logFile ++ [dateTimeString now ++ " > " ++ c ++ "\n\n"]
          ∧ (sendCommand st now c).sentRcon
            = st.sentRcon ++ [rconPayload st.password c]) := by
  constructor
  · rw [sendCommand_logFile, sendCommand_logFile]
  · intro ha hl ho
    have h' : ¬ msecsTo st.lastCommand now < 1000 := by simpa [accepts] using ha
    constructor
    · rw [sendCommand_logFile, if_neg h', if_neg hl, if_pos ho]
    · rw [sendCommand_sentRcon, if_neg h']

/-- C4 witness: a concrete accepted send logs only the timestamped command and
puts the password-bearing payload on the transport. -/
theorem sendCommand_password_hidden_witness :
    (sendCommand demoState 0 "status").logFile
        = demoState.logFile ++ [dateTimeString 0 ++ " > " ++ "status" ++ "\n\n"]
    ∧ (sendCommand demoState 0 "status").sentRcon
        = demoState.sentRcon ++ [rconPayload "secret" "status"] :=
  (sendCommand_password_hidden demoState 0 "status" "x" "y").2
    (by decide) (by decide) (by decide)

/-- C5: when the stored `logging_enabled` value is the string "0",
`writeToLog` returns before any file I/O: the state is unchanged, so in
particular no open is attempted (`logOpens` keeps its value), nothing is
written and no handle is created. -/
theorem writeToLog_disabled (st : State) (line : String)
    (h : st.loggingEnabled = some "0") : writeToLog st line = st := by
  simp [writeToLog, h]

/-- C5 witness: a concrete disabled-logging state is returned unchanged. -/
theorem writeToLog_disabled_witness :
    writeToLog demoStateLogOff "x" = demoStateLogOff :=
  writeToLog_disabled demoStateLogOff "x" (by decide)

/-- C6: when the log file cannot be opened, the log line is silently skipped —
the transcript is unchanged and no error propagates (`writeToLog` is total) —
and an accepted `sendCommand` still hands the command to the rcon client. -/
theorem sendCommand_sends_despite_log_failure (st : State) (now : Timestamp)
    (c : String) (ha : accepts st now = true) (ho : st.logOpenOk = false) :
    (sendCommand st now c).logFile = st.logFile
    ∧ (sendCommand st now c).sentRcon = st.sentRcon ++ [rconPayload st.password c] := by
  have h' : ¬ msecsTo st.lastCommand now < 1000 := by simpa [accepts] using ha
  constructor
  · rw [sendCommand_logFile, if_neg h', ho]
    simp
  · rw [sendCommand_sentRcon, if_neg h']

/-- C6 witness: with the log file unopenable, a concrete send leaves the
transcript empty and still reaches the transport. -/
theorem sendCommand_sends_despite_log_failure_witness :
    (sendCommand demoStateOpenFail 0 "status").logFile = demoStateOpenFail.logFile
    ∧ (sendCommand demoStateOpenFail 0 "status").sentRcon
        = demoStateOpenFail.sentRcon ++ [rconPayload "secret" "status"] :=
  sendCommand_sends_despite_log_failure demoStateOpenFail 0 "status"
    (by decide) (by decide)

/-- C7: the log file name is the deterministic image of `(host, port)` under
the `"log_%1_%2.log"` format — two sessions against the same server agree on
it whatever their construction time, password, settings or open outcome; every
append leaves the previous contents as a prefix (append-only, never
truncated); each call releases its handle before returning; and each
non-disabled call opens the file exactly once (in append mode, per the
`QFile::WriteOnly | QFile::Append` flags modelled in `writeToLog`). -/
theorem transcript_append_only (st : State) (line c : String)
    (now t0 t1 : Timestamp) (host : String) (port : Nat) (pw pw' : String)
    (pref pref' : Option String) (ok ok' : Bool) :
    (construct t0 host port pw pref ok).logFileName = mkLogFileName host port
    ∧ (construct t0 host port pw pref ok).logFileName
        = (construct t1 host port pw' pref' ok').logFileName
    ∧ st.logFile <+: (writeToLog st line).logFile
    ∧ (writeToLog st line).openHandles = st.openHandles
    ∧ (st.loggingEnabled ≠ some "0" → (writeToLog st line).logOpens = st.logOpens + 1)
    ∧ st.logFile <+: (sendCommand st now c).logFile := by
  refine ⟨rfl, rfl, ?_, writeToLog_openHandles st line, ?_, ?_⟩
  · rw [writeToLog_logFile]
    repeat' split
    all_goals first
      | exact List.prefix_refl _
      | exact List.prefix_append _ _
  · intro h
    rw [writeToLog_logOpens, if_neg h]
  · rw [sendCommand_logFile]
    repeat' split
    all_goals first
      | exact List.prefix_refl _
      | exact List.prefix_append _ _

/-- C7 witness: a concrete enabled append performs exactly one file open. -/
theorem transcript_append_only_witness :
    (writeToLog demoState "x").logOpens = demoState.logOpens + 1 :=
  (transcript_append_only demoState "x" "c" 0 0 0 "1.2.3.4" 28960 "p" "q"
      none none true true).2.2.2.2.1 (by decide)

/-- C8: immediately after construction the first send is accepted no matter
how soon it occurs, because `lastCommand` is initialised to one day before the
construction time `t0`, which exceeds the 1000 ms window for any `now ≥ t0`;
the accepted call then takes over the window. -/
theorem first_send_accepted (t0 : Timestamp) (host : String) (port : Nat)
    (pw : String) (pref : Option String) (ok : Bool) (now : Timestamp)
    (c : String) (h : t0 ≤ now) :
    accepts (construct t0 host port pw pref ok) now = true
    ∧ (sendCommand (construct t0 host port pw pref ok) now c).lastCommand = now := by
  have h2 : (0 : Int) ≤ now - t0 := Int.sub_nonneg.mpr h
  have h' : ¬ msecsTo (construct t0 host port pw pref ok).lastCommand now < 1000 := by
    simp only [construct, msecsTo, msecsPerDay]
    omega
  constructor
  · simp [accepts, h']
  · rw [sendCommand_lastCommand, if_neg h']

/-- C8 witness: a send in the very instant of construction is accepted. -/
theorem first_send_accepted_witness :
    accepts (construct 0 "1.2.3.4" 28960 "secret" none true) 0 = true
    ∧ (sendCommand (construct 0 "1.2.3.4" 28960 "secret" none true) 0 "status").lastCommand
        = 0 :=
  first_send_accepted 0 "1.2.3.4" 28960 "secret" none true 0 "status" (by decide)

/-- C9: `writeToLog` treats logging as disabled exactly when the stored
`logging_enabled` value is the string "0"; for every other stored value —
including an absent key (integer default 1, as in `demoState`) and the string
"false" — the append proceeds, so logging defaults to enabled. -/
theorem writeToLog_enabled_unless_zero (st : State) (line : String) :
    (st.loggingEnabled = some "0" → writeToLog st line = st)
    ∧ (st.loggingEnabled ≠ some "0" → st.logOpenOk = true →
        (writeToLog st line).logFile = st.logFile ++ [line])
    ∧ (writeToLog demoState "x").logFile = ["x"]
    ∧ (writeToLog { demoState with loggingEnabled := some "false" } "x").logFile = ["x"] := by
  refine ⟨?_, ?_, by decide, by decide⟩
  · intro h
    simp [writeToLog, h]
  · intro h1 h2
    rw [writeToLog_logFile, if_neg h1, if_pos h2]

/-- C9 witness: the stored value "1" keeps logging enabled, the stored value
"0" disables it. -/
theorem writeToLog_enabled_unless_zero_witness :
    writeToLog demoStateLogOff "y" = demoStateLogOff
    ∧ (writeToLog { demoState with loggingEnabled := some "1" } "y").logFile = ["y"] :=
  ⟨(writeToLog_enabled_unless_zero demoStateLogOff "y").1 (by decide),
    by simpa using
      (writeToLog_enabled_unless_zero { demoState with loggingEnabled := some "1" } "y").2.1
        (by decide) (by decide)⟩

/-- C10: `requestServerStatus` appends exactly one `getstatus` payload to the
query transport and changes nothing else; in particular it neither reads a
decision from nor writes to the rate limiter's `lastCommand`, which governs
only `sendCommand`. -/
theorem requestServerStatus_bypasses_gate (st : State) :
    requestServerStatus st = { st with sentQuery := st.sentQuery ++ ["getstatus"] }
    ∧ (requestServerStatus st).lastCommand = st.lastCommand
    ∧ (requestServerStatus st).sentRcon = st.sentRcon
    ∧ (requestServerStatus st).logFile = st.logFile :=
  ⟨rfl, rfl, rfl, rfl⟩

end Qtercon
